import Mathlib

/-!
Shallow embedding of the trip-assistant agent core: the topic classifier,
the category-to-document mapping, the specialist answerers, the routing
function, the compiled pipeline graph, and the Lambda entry point.

Conventions of the embedding:
* Python strings are Lean `String`; Python floats that only carry
  confidence scores are `Rat` (the spec reasons about them order-theoretically).
* A Python dict with insertion order (the document set, the TOPICS table) is an
  association list `List (String × String)`; `dict.get(k, d)` is
  `(List.lookup k).getD d`.
* A model call `llm.invoke(prompt)` is a behaviour `String → Except String α`:
  the function returns the content on success and the raised exception text on
  failure.  Pydantic validation of structured output is part of the behaviour:
  an output that fails validation raises, i.e. lands in `Except.error`.
* LangGraph nodes return partial state updates; the runner merges them into a
  record whose not-yet-written fields are `none`.  A `KeyError` that Python
  would raise on a missing field is `Except.error`.
-/

set_option maxHeartbeats 1000000
set_option maxRecDepth 100000

namespace TripAgent

/-- The closed topic enumeration `TopicCategory` from `src/schemas.py`. -/
inductive TopicCategory where
  | flight
  | car_rental
  | routes
  | aosta
  | chamonix
  | annecy_geneva
  | general
  deriving DecidableEq

/-- The runtime string value of each `TopicCategory` literal. -/
def catString : TopicCategory → String
  | .flight => "flight"
  | .car_rental => "car_rental"
  | .routes => "routes"
  | .aosta => "aosta"
  | .chamonix => "chamonix"
  | .annecy_geneva => "annecy_geneva"
  | .general => "general"

/-- Structured classifier output (`TopicClassification` in `src/schemas.py`):
a topic category plus a confidence score.  Pydantic constrains the score with
`ge=0.0, le=1.0`; a model output violating that raises at validation time, so
a successfully returned value satisfies `TopicClassification.Valid` below. -/
structure TopicClassification where
  category : TopicCategory
  confidence : Rat
  deriving DecidableEq

/-- The pydantic field constraint `ge=0.0, le=1.0` on `confidence`. -/
def TopicClassification.Valid (tc : TopicClassification) : Prop :=
  0 ≤ tc.confidence ∧ tc.confidence ≤ 1

/-- The document set: a Python dict `filename-stem ↦ content` with insertion
order, as an association list. -/
abbrev Documents := List (String × String)

/-- Python `documents.get(key, dflt)`. -/
def dictGetD (documents : Documents) (key dflt : String) : String :=
  (documents.lookup key).getD dflt

/-- Python `documents.get(key)` (`None` when absent). -/
def dictGet (documents : Documents) (key : String) : Option String :=
  documents.lookup key

/-- Behaviour of `llm.with_structured_output(TopicClassification).invoke`. -/
abbrev ClassifyBehavior := String → Except String TopicClassification

/-- Behaviour of a plain `llm.invoke` (the `response.content` string on
success; the `assert isinstance(response.content, str)` failure is also an
exception, hence an `Except.error`). -/
abbrev AnswerBehavior := String → Except String String

/-- The LangGraph runtime state (`TripAssistantState` in `src/schemas.py`).
Fields a node has not yet written are `none`; `category` is held as the raw
runtime string, since a Python `Literal` type is not enforced at runtime. -/
structure TripAssistantState where
  question : String
  category : Option String := none
  confidence : Option Rat := none
  documents : Option Documents := none
  current_context : Option String := none
  answer : Option String := none
  source : Option (Option String) := none
  deriving DecidableEq

/-- Partial state update returned by the classifier node
(`ClassifierOutput` in `src/schemas.py`). -/
structure ClassifierOutput where
  category : TopicCategory
  confidence : Rat
  current_context : String
  deriving DecidableEq

/-- Partial state update returned by the specialist nodes
(`SpecialistOutput` in `src/schemas.py`). -/
structure SpecialistOutput where
  answer : String
  source : Option String
  deriving DecidableEq

/-- The dict `CATEGORY_TO_DOCUMENT_KEY` of `src/nodes/classifier.py`:
document key per category, with the empty string for `general`. -/
def CATEGORY_TO_DOCUMENT_KEY : TopicCategory → String
  | .flight => "flight"
  | .car_rental => "car_rental"
  | .routes => "routes_to_aosta"
  | .aosta => "aosta_valley"
  | .chamonix => "chamonix"
  | .annecy_geneva => "annecy_geneva"
  | .general => ""

/-- The classification prompt built by `classify_question`
(an f-string over the question). -/
def classification_prompt (question : String) : String :=
  "Classify the following question about a family trip to the French/Italian Alps.\n\nAvailable categories:\n- flight: Questions about flight details (times, airline, etc.)\n- car_rental: Questions about car rental pickup, location, details\n- routes: Questions about driving routes to destinations\n- aosta: Questions about Aosta Valley itinerary (July 8-11)\n- chamonix: Questions about Chamonix itinerary (July 12-16)\n- annecy_geneva: Questions about Annecy/Geneva itinerary (July 16-20)\n- general: Unclear questions or general trip questions\n\nQuestion: "
    ++ question
    ++ "\n\nClassify this question and provide a confidence score (0.0-1.0)."

/-- The context-resolution step at the end of `classify_question`
(`src/nodes/classifier.py`, lines 70-72):
`doc_key = CATEGORY_TO_DOCUMENT_KEY[category]` followed by
`documents.get(doc_key, "") if doc_key else ""`.
A pure function of the classified topic and the document set. -/
def resolve_context (category : TopicCategory) (documents : Documents) : String :=
  let doc_key := CATEGORY_TO_DOCUMENT_KEY category
  if doc_key ≠ "" then dictGetD documents doc_key "" else ""

/-- The classifier node `classify_question` of `src/nodes/classifier.py`.
Reads `state["question"]` and `state["documents"]`, invokes the structured
model call on the classification prompt, falls back to
`TopicClassification(category="general", confidence=0.0)` when the call
raises, then resolves the current context. -/
def classify_question (structured_llm : ClassifyBehavior)
    (state : TripAssistantState) : Except String ClassifierOutput :=
  match state.documents with
  | none => .error "KeyError: documents"
  | some documents =>
    let classification :=
      match structured_llm (classification_prompt state.question) with
      | .ok c => c
      | .error _ => { category := .general, confidence := 0 }
    .ok { category := classification.category,
          confidence := classification.confidence,
          current_context := resolve_context classification.category documents }

/-- The specialist prompt template `SPECIALIST_PROMPT_TEMPLATE` of
`src/prompts.py`, applied to its `topic`, `context` and `question` slots. -/
def SPECIALIST_PROMPT_TEMPLATE (topic context question : String) : String :=
  "Answer the following question about " ++ topic
    ++ " using only the provided context.\n\nTrip timeline reference:\n- Day 1: July 7 (arrival/car rental)\n- Days 2-4: July 8-10 (Aosta Valley)\n- Day 5: July 11 (travel day)\n- Days 6-10: July 12-16 (Chamonix)\n- Days 10-12: July 16-18 (Annecy)\n- Day 13: July 19 (Annecy → Geneva)\n- Day 14: July 20 (departure)\n\nUse this mapping when the user asks about a specific day number or date.\n\nContext:\n"
    ++ context ++ "\n\nQuestion: " ++ question
    ++ "\n\nProvide a clear, concise answer based on the context. If the context lists multiple options or alternatives, present ALL of them so the user can choose — do not pick one on their behalf. If the context doesn\x27t contain the information, say so."

/-- The general prompt template `GENERAL_PROMPT_TEMPLATE` of `src/prompts.py`,
applied to its `context` and `question` slots. -/
def GENERAL_PROMPT_TEMPLATE (context question : String) : String :=
  "Answer the following question about a family trip to the French/Italian Alps.\n\nAvailable information:\n"
    ++ context ++ "\n\nQuestion: " ++ question
    ++ "\n\nProvide a helpful answer based on the available information. If the question is unclear or you need more details, ask for clarification."

/-- The dict `TOPICS` of `src/prompts.py`: natural-language topic names used
when formatting specialist prompts (no entry for `general`). -/
def TOPICS : List (String × String) :=
  [("flight", "a flight"),
   ("car_rental", "car rental"),
   ("routes", "driving routes"),
   ("aosta", "the Aosta Valley itinerary"),
   ("chamonix", "the Chamonix itinerary"),
   ("annecy_geneva", "the Annecy and Geneva itinerary")]

/-- Lookup `TOPICS[category]` as a total function (defined for the six
categories that actually have entries; `general` has none). -/
def topicLabel (category : TopicCategory) : String :=
  (TOPICS.lookup (catString category)).getD ""

/-- The inner `specialist_node` closure produced by `create_specialist` in
`src/nodes/specialist_factory.py`.  Reads `state["question"]` and
`state["current_context"]`, formats the specialist prompt (a `KeyError` from
`TOPICS[category]` would propagate, since it happens before the `try` block),
invokes the model, and falls back to the fixed apology string when the call
raises. -/
def specialist_node (category : TopicCategory) (source_file : String)
    (llm : AnswerBehavior) (state : TripAssistantState) :
    Except String SpecialistOutput :=
  match state.current_context with
  | none => .error "KeyError: current_context"
  | some context =>
    match TOPICS.lookup (catString category) with
    | none => .error "KeyError: TOPICS"
    | some label =>
      let prompt := SPECIALIST_PROMPT_TEMPLATE label context state.question
      let answer :=
        match llm prompt with
        | .ok content => content
        | .error _ =>
          "Sorry, I couldn\x27t retrieve " ++ label
            ++ " information right now. Please try again."
      .ok { answer := answer, source := some source_file }

/-- The factory `create_specialist` of `src/nodes/specialist_factory.py`. -/
def create_specialist (category : TopicCategory) (source_file : String) :
    AnswerBehavior → TripAssistantState → Except String SpecialistOutput :=
  specialist_node category source_file

/-- Each document combined as `f"=== \x7bname\x7d ===\n\x7bcontent\x7d"`
inside `handle_general` (`src/nodes/general.py`). -/
def document_block (p : String × String) : String :=
  "=== " ++ p.1 ++ " ===\n" ++ p.2

/-- Python `sep.join(blocks)`. -/
def joinSep (sep : String) : List String → String
  | [] => ""
  | [s] => s
  | s :: rest => s ++ sep ++ joinSep sep rest

/-- The `all_context` value built inside `handle_general`:
`"\n\n".join(f"=== \x7bname\x7d ===\n\x7bcontent\x7d" for ...)` over the
document dict in insertion order. -/
def all_context (documents : Documents) : String :=
  joinSep "\n\n" (documents.map document_block)

/-- The general node `handle_general` of `src/nodes/general.py`: combines all
documents into one context, invokes the model on the general prompt, and
falls back to the fixed apology string when the call raises. -/
def handle_general (llm : AnswerBehavior) (state : TripAssistantState) :
    Except String SpecialistOutput :=
  match state.documents with
  | none => .error "KeyError: documents"
  | some documents =>
    let prompt := GENERAL_PROMPT_TEMPLATE (all_context documents) state.question
    let answer :=
      match llm prompt with
      | .ok content => content
      | .error _ =>
        "Sorry, I couldn\x27t process your question right now. Please try rephrasing or asking something more specific."
    .ok { answer := answer, source := none }

/-- The `handle_flight` specialist built in `src/nodes/__init__.py`. -/
def handle_flight := create_specialist .flight "flight.txt"

/-- The `handle_car_rental` specialist built in `src/nodes/__init__.py`. -/
def handle_car_rental := create_specialist .car_rental "car_rental.txt"

/-- The `handle_routes` specialist built in `src/nodes/__init__.py`. -/
def handle_routes := create_specialist .routes "routes_to_aosta.txt"

/-- The `handle_aosta` specialist built in `src/nodes/__init__.py`. -/
def handle_aosta := create_specialist .aosta "aosta_valley.txt"

/-- The `handle_chamonix` specialist built in `src/nodes/__init__.py`. -/
def handle_chamonix := create_specialist .chamonix "chamonix.txt"

/-- The `handle_annecy_geneva` specialist built in `src/nodes/__init__.py`. -/
def handle_annecy_geneva := create_specialist .annecy_geneva "annecy_geneva.txt"

/-- The six non-`general` specialist instantiations of
`src/nodes/__init__.py`: category and static source-file label. -/
def specialists : List (TopicCategory × String) :=
  [(.flight, "flight.txt"),
   (.car_rental, "car_rental.txt"),
   (.routes, "routes_to_aosta.txt"),
   (.aosta, "aosta_valley.txt"),
   (.chamonix, "chamonix.txt"),
   (.annecy_geneva, "annecy_geneva.txt")]

/-- The `inject_documents` node of `src/graph.py`: returns the module-level
cached documents as a partial state update, ignoring the incoming state and
mutating nothing. -/
def inject_documents (cached : Documents) (_state : TripAssistantState) :
    Documents :=
  cached

/-- The routing function `route_by_category` of `src/graph.py`: reads
`state.get("category")`; a missing (`None`) category routes to `"general"`,
any present value is returned verbatim as the node name. -/
def route_by_category (state : TripAssistantState) : String :=
  match state.category with
  | none => "general"
  | some category => category

/-- Whether the `logger.warning` call inside `route_by_category` fires
(it does exactly on the `category is None` branch). -/
def route_by_category_warns (state : TripAssistantState) : Bool :=
  match state.category with
  | none => true
  | some _ => false

/-- Dispatch on the node name produced by `route_by_category`: `create_graph`
in `src/graph.py` registers exactly these seven nodes, and `graph.invoke`
raises on any other name returned by the conditional edge. -/
def invoke_node (name : String) (llm : AnswerBehavior)
    (state : TripAssistantState) : Except String SpecialistOutput :=
  if name = "flight" then handle_flight llm state
  else if name = "car_rental" then handle_car_rental llm state
  else if name = "routes" then handle_routes llm state
  else if name = "aosta" then handle_aosta llm state
  else if name = "chamonix" then handle_chamonix llm state
  else if name = "annecy_geneva" then handle_annecy_geneva llm state
  else if name = "general" then handle_general llm state
  else .error ("Unknown node: " ++ name)

/-- One invocation of the compiled graph (`graph.invoke` on a state holding
only the question):
START → `inject_documents` → `classifier` → conditional routing →
one specialist → END, merging each partial update into the state. -/
def run_pipeline (cached : Documents) (structured_llm : ClassifyBehavior)
    (llm : AnswerBehavior) (question : String) :
    Except String TripAssistantState :=
  let s0 : TripAssistantState := { question := question }
  let s1 := { s0 with documents := some (inject_documents cached s0) }
  match classify_question structured_llm s1 with
  | .error e => .error e
  | .ok out =>
    let s2 := { s1 with
      category := some (catString out.category),
      confidence := some out.confidence,
      current_context := some out.current_context }
    match invoke_node (route_by_category s2) llm s2 with
    | .error e => .error e
    | .ok sp => .ok { s2 with answer := some sp.answer, source := some sp.source }

/-- One invocation of the graph together with the module-level document cache
it leaves behind: the only module-level state of `src/graph.py` is
`_documents`, which `inject_documents` reads and no node assigns, so a run
returns the cache unchanged. -/
def run_pipeline_module (cached : Documents)
    (structured_llm : ClassifyBehavior) (llm : AnswerBehavior)
    (question : String) :
    Except String TripAssistantState × Documents :=
  (run_pipeline cached structured_llm llm question, cached)

/-- The ping sentinel `PING_SENTINEL` of `src/agent/handler.py`. -/
def PING_SENTINEL : String := "__ping__"

/-- Body of the Lambda response of `src/agent/handler.py`: either the 400
error body or the answer payload. -/
inductive ResponseBody where
  | err (error : String)
  | result (answer : String) (category : String) (confidence : Rat)
      (source : Option String)
  deriving DecidableEq

/-- A Lambda response: status code and JSON body. -/
structure LambdaResponse where
  statusCode : Nat
  body : ResponseBody
  deriving DecidableEq

/-- The Lambda `handler` of `src/agent/handler.py`, with the question already
extracted (`body.get("question", "")`; a missing field yields `""`).  The
second component counts how many times `graph.invoke` ran: the empty-question
and ping paths return before invoking the pipeline (`_get_graph()` on the
ping path only initializes the graph and makes no model call). -/
def handler (cached : Documents) (structured_llm : ClassifyBehavior)
    (llm : AnswerBehavior) (question : String) :
    Except String (LambdaResponse × Nat) :=
  if question = "" then
    .ok ({ statusCode := 400, body := .err "Missing \x27question\x27 field" }, 0)
  else if question = PING_SENTINEL then
    .ok ({ statusCode := 200, body := .result "pong" "ping" 1 none }, 0)
  else
    match run_pipeline cached structured_llm llm question with
    | .ok s =>
      .ok ({ statusCode := 200,
             body := .result (s.answer.getD "") (s.category.getD "")
               (s.confidence.getD 0) ((s.source).getD none) }, 1)
    | .error e => .error e

/-- The classification the pipeline proceeds with: the structured model
output on success, the fallback `(general, 0.0)` when the call raises. -/
def classificationOf (structured_llm : ClassifyBehavior) (question : String) :
    TopicClassification :=
  match structured_llm (classification_prompt question) with
  | .ok c => c
  | .error _ => { category := .general, confidence := 0 }

/-- The `source` label the invoked node reports for each category. -/
def pipelineSource : TopicCategory → Option String
  | .general => none
  | c => some (CATEGORY_TO_DOCUMENT_KEY c ++ ".txt")

/-- The fixed apology string each node substitutes when its model call
raises. -/
def fallbackAnswer : TopicCategory → String
  | .general =>
    "Sorry, I couldn\x27t process your question right now. Please try rephrasing or asking something more specific."
  | c =>
    "Sorry, I couldn\x27t retrieve " ++ topicLabel c
      ++ " information right now. Please try again."

/-- The prompt the routed node hands to its model call. -/
def node_prompt (category : TopicCategory) (context question : String)
    (documents : Documents) : String :=
  match category with
  | .general => GENERAL_PROMPT_TEMPLATE (all_context documents) question
  | c => SPECIALIST_PROMPT_TEMPLATE (topicLabel c) context question

/-- The answer the routed node produces for a given model behaviour. -/
def node_answer (category : TopicCategory) (llm : AnswerBehavior)
    (context question : String) (documents : Documents) : String :=
  match llm (node_prompt category context question documents) with
  | .ok content => content
  | .error _ => fallbackAnswer category

theorem run_pipeline_eq (cached : Documents) (structured_llm : ClassifyBehavior)
    (llm : AnswerBehavior) (q : String) :
    run_pipeline cached structured_llm llm q =
      .ok { question := q,
            documents := some cached,
            category := some (catString (classificationOf structured_llm q).category),
            confidence := some (classificationOf structured_llm q).confidence,
            current_context :=
              some (resolve_context (classificationOf structured_llm q).category cached),
            answer :=
              some (node_answer (classificationOf structured_llm q).category llm
                (resolve_context (classificationOf structured_llm q).category cached)
                q cached),
            source := some (pipelineSource (classificationOf structured_llm q).category) } := by
  cases hcb : structured_llm (classification_prompt q) with
  | ok tc =>
    obtain ⟨c, conf⟩ := tc
    cases c <;>
      simp [run_pipeline, classify_question, classificationOf, hcb, resolve_context,
        invoke_node, route_by_category, node_answer, node_prompt, pipelineSource,
        handle_flight, handle_car_rental, handle_routes, handle_aosta,
        handle_chamonix, handle_annecy_geneva, handle_general, create_specialist,
        specialist_node, topicLabel, fallbackAnswer, inject_documents,
        CATEGORY_TO_DOCUMENT_KEY, catString, TOPICS, List.lookup]
  | error e =>
    simp [run_pipeline, classify_question, classificationOf, hcb, resolve_context,
      invoke_node, route_by_category, node_answer, node_prompt, pipelineSource,
      handle_general, specialist_node, topicLabel, fallbackAnswer,
      inject_documents, CATEGORY_TO_DOCUMENT_KEY, catString, Except.bind]

/-- Substring containment: `pat` occurs contiguously inside `s`. -/
abbrev strContains (s pat : String) : Prop :=
  pat.data <:+: s.data

theorem strContains_refl (s : String) : strContains s s :=
  ⟨[], [], by simp⟩

theorem strContains_appendL (s t pat : String) (h : strContains s pat) :
    strContains (t ++ s) pat := by
  obtain ⟨u, v, huv⟩ := h
  exact ⟨t.data ++ u, v, by simp [String.data_append, ← huv, List.append_assoc]⟩

theorem strContains_appendR (s t pat : String) (h : strContains s pat) :
    strContains (s ++ t) pat := by
  obtain ⟨u, v, huv⟩ := h
  exact ⟨u, v ++ t.data, by simp [String.data_append, ← huv, List.append_assoc]⟩

theorem catString_inj {a b : TopicCategory} (h : catString a = catString b) :
    a = b := by
  cases a <;> cases b <;> first | rfl | exact absurd h (by decide)

theorem catString_eq_general {c : TopicCategory} (h : catString c = "general") :
    c = .general :=
  catString_inj h

/-- C1: for every document cache, question, and behaviour of the two model
calls (returning a value or raising any exception), the compiled graph
completes without raising and produces a result in which the answer,
category, confidence and source fields are all populated. -/
theorem run_pipeline_total_and_populated (cached : Documents)
    (structured_llm : ClassifyBehavior) (llm : AnswerBehavior) (q : String) :
    ∃ s : TripAssistantState,
      run_pipeline cached structured_llm llm q = .ok s ∧
      s.answer.isSome ∧ s.category.isSome ∧ s.confidence.isSome ∧
      s.source.isSome :=
  ⟨_, run_pipeline_eq cached structured_llm llm q, rfl, rfl, rfl, rfl⟩

/-- C2 counterexample: a state whose category holds the out-of-catalog value
"bogus" is routed verbatim to the node name "bogus" with no warning, not
remapped to "general"; the compiled graph has no node of that name, so the
invocation errors instead of answering through the general node. -/
theorem route_out_of_catalog_not_general :
    route_by_category { question := "q", category := some "bogus" } = "bogus" ∧
    "bogus" ≠ "general" ∧
    route_by_category_warns { question := "q", category := some "bogus" } = false ∧
    invoke_node "bogus" (fun _ => .ok "a")
        { question := "q", category := some "bogus" } =
      .error "Unknown node: bogus" :=
  ⟨rfl, by decide, rfl, rfl⟩

/-- C2 (amended): the routing step treats only a missing (None) category as
general, recording a warning; a present category value — inside or outside
the catalog — is returned verbatim as the node name, with no warning and no
remapping to general. -/
theorem route_by_category_behaviour (s : TripAssistantState) :
    (s.category = none →
      route_by_category s = "general" ∧ route_by_category_warns s = true) ∧
    (∀ c, s.category = some c →
      route_by_category s = c ∧ route_by_category_warns s = false) := by
  refine ⟨fun h => ?_, fun c h => ?_⟩ <;>
    simp [route_by_category, route_by_category_warns, h]

/-- Witness for the amended C2 theorem at a concrete category-free state. -/
theorem route_by_category_behaviour_witness :
    route_by_category { question := "q" } = "general" ∧
      route_by_category_warns { question := "q" } = true :=
  (route_by_category_behaviour { question := "q" }).1 rfl

/-- C8: one pipeline invocation leaves the module-level document cache
unchanged (it is only read, never assigned), so a second invocation with the
same question and the same fixed model behaviours produces a result identical
to the first. -/
theorem run_pipeline_idempotent (cached : Documents)
    (structured_llm : ClassifyBehavior) (llm : AnswerBehavior) (q : String) :
    (run_pipeline_module cached structured_llm llm q).2 = cached ∧
    (run_pipeline_module (run_pipeline_module cached structured_llm llm q).2
        structured_llm llm q).1 =
      (run_pipeline_module cached structured_llm llm q).1 :=
  ⟨rfl, rfl⟩

/-- C10: the Lambda handler short-circuits the exact question "__ping__" with
status 200, answer "pong", category "ping" (a value outside the topic
catalog), confidence 1.0 and no source, and a missing or empty question with
status 400 — in both cases with zero pipeline invocations and independently
of the model behaviours. -/
theorem handler_ping_and_missing_question (cached : Documents)
    (structured_llm : ClassifyBehavior) (llm : AnswerBehavior) :
    handler cached structured_llm llm "__ping__" =
      .ok ({ statusCode := 200, body := .result "pong" "ping" 1 none }, 0) ∧
    handler cached structured_llm llm "" =
      .ok ({ statusCode := 400,
             body := .err "Missing \x27question\x27 field" }, 0) ∧
    ∀ c : TopicCategory, catString c ≠ "ping" := by
  refine ⟨rfl, rfl, fun c => ?_⟩
  cases c <;> decide

/-- Witness for C10 at concrete (unused) model behaviours. -/
theorem handler_ping_and_missing_question_witness :
    handler [] (fun _ => .error "x") (fun _ => .error "y") "__ping__" =
      .ok ({ statusCode := 200, body := .result "pong" "ping" 1 none }, 0) ∧
    catString .general ≠ "ping" :=
  ⟨(handler_ping_and_missing_question [] (fun _ => .error "x")
      (fun _ => .error "y")).1,
   (handler_ping_and_missing_question [] (fun _ => .error "x")
      (fun _ => .error "y")).2.2 .general⟩

/-- C3: when the classifier model call raises any exception,
`classify_question` does not propagate it and returns the fallback
classification with topic general and confidence 0.0; and on every path —
given that a non-raising structured output satisfies the pydantic bounds —
the returned confidence lies within [0.0, 1.0]. -/
theorem classify_question_fallback_and_bounds (documents : Documents)
    (q : String) (structured_llm : ClassifyBehavior)
    (hvalid : ∀ tc, structured_llm (classification_prompt q) = .ok tc → tc.Valid) :
    ∃ out : ClassifierOutput,
      classify_question structured_llm
          { question := q, documents := some documents } = .ok out ∧
      (∀ e, structured_llm (classification_prompt q) = .error e →
        out.category = .general ∧ out.confidence = 0) ∧
      0 ≤ out.confidence ∧ out.confidence ≤ 1 := by
  cases hcb : structured_llm (classification_prompt q) with
  | ok tc =>
    refine ⟨{ category := tc.category, confidence := tc.confidence,
              current_context := resolve_context tc.category documents },
            by simp [classify_question, hcb], fun e he => ?_,
            (hvalid tc hcb).1, (hvalid tc hcb).2⟩
    simp [hcb] at he
  | error e0 =>
    exact ⟨{ category := .general, confidence := 0,
             current_context := resolve_context .general documents },
           by simp [classify_question, hcb], fun e _ => ⟨rfl, rfl⟩,
           by norm_num, by norm_num⟩

/-- Witness for C3: a raising classifier call over an empty document set. -/
theorem classify_question_fallback_and_bounds_witness :
    ∃ out : ClassifierOutput,
      classify_question (fun _ => .error "boom")
          { question := "q", documents := some [] } = .ok out ∧
      (∀ e, (fun _ => (.error "boom" : Except String TopicClassification))
          (classification_prompt "q") = .error e →
        out.category = .general ∧ out.confidence = 0) ∧
      0 ≤ out.confidence ∧ out.confidence ≤ 1 :=
  classify_question_fallback_and_bounds [] "q" (fun _ => .error "boom")
    (fun _ h => nomatch h)

/-- C7: for every non-general topic, context resolution is exactly the pure
lookup `documents.get(CATEGORY_TO_DOCUMENT_KEY[topic], "")`: byte-for-byte
the stored document when the key is present, the empty string — without
raising — when it is absent; and inside `classify_question` the resolved
context is this pure function of (topic, documents) alone, with no model
call and no dependence on the question or confidence. -/
theorem resolve_context_nongeneral (c : TopicCategory) (hc : c ≠ .general)
    (documents : Documents) :
    (∀ v, dictGet documents (CATEGORY_TO_DOCUMENT_KEY c) = some v →
      resolve_context c documents = v) ∧
    (dictGet documents (CATEGORY_TO_DOCUMENT_KEY c) = none →
      resolve_context c documents = "") ∧
    (∀ conf q,
      classify_question (fun _ => .ok { category := c, confidence := conf })
          { question := q, documents := some documents } =
        .ok { category := c, confidence := conf,
              current_context := resolve_context c documents }) := by
  cases c
  case general => exact absurd rfl hc
  all_goals
    refine ⟨fun v h => ?_, fun h => ?_, fun conf q => rfl⟩ <;>
      (simp only [dictGet, CATEGORY_TO_DOCUMENT_KEY] at h;
       simp [resolve_context, CATEGORY_TO_DOCUMENT_KEY, dictGetD, h])

/-- Witness for C7: the flight topic, with its key present and absent. -/
theorem resolve_context_nongeneral_witness :
    resolve_context .flight [("flight", "FLY")] = "FLY" ∧
    resolve_context .flight [] = "" :=
  ⟨(resolve_context_nongeneral .flight (by decide) [("flight", "FLY")]).1
      "FLY" rfl,
   (resolve_context_nongeneral .flight (by decide) []).2.1 rfl⟩

/-- C9: whenever the classification of the pipeline comes out general
(returned by the model or produced by the failure fallback), the final
state has current_context equal to the empty string — the all-documents concatenation is
built inside the general answerer and never stored in current_context. -/
theorem general_current_context_empty (cached : Documents)
    (structured_llm : ClassifyBehavior) (llm : AnswerBehavior) (q : String)
    (s : TripAssistantState)
    (h : run_pipeline cached structured_llm llm q = .ok s)
    (hg : s.category = some "general") :
    s.current_context = some "" := by
  rw [run_pipeline_eq] at h
  injection h with h
  subst h
  have hx : (classificationOf structured_llm q).category = .general :=
    catString_eq_general (by simpa using hg)
  simp [hx, resolve_context, CATEGORY_TO_DOCUMENT_KEY]

/-- Witness for C9: a concrete run with a raising classifier call. -/
theorem general_current_context_empty_witness :
    ({ question := "hello", documents := some [("flight", "FLY")],
       category := some "general", confidence := some 0,
       current_context := some "", answer := some "ans",
       source := some none } : TripAssistantState).current_context =
      some "" :=
  general_current_context_empty [("flight", "FLY")] (fun _ => .error "boom")
    (fun _ => .ok "ans") "hello" _ rfl rfl

/-- C5: in every completed pipeline result, the source is None exactly when
the category is general; and for every non-general topic, the source is that
document key of that topic with its original ".txt" extension restored, on success
and failure paths alike (the theorem quantifies over every behaviour of both
model calls). -/
theorem pipeline_source_iff_general (cached : Documents)
    (structured_llm : ClassifyBehavior) (llm : AnswerBehavior) (q : String)
    (s : TripAssistantState)
    (h : run_pipeline cached structured_llm llm q = .ok s) :
    (s.source = some none ↔ s.category = some "general") ∧
    (∀ c : TopicCategory, c ≠ .general → s.category = some (catString c) →
      s.source = some (some (CATEGORY_TO_DOCUMENT_KEY c ++ ".txt"))) := by
  rw [run_pipeline_eq] at h
  injection h with h
  subst h
  generalize (classificationOf structured_llm q).category = c0
  cases c0 <;>
    refine ⟨by simp [pipelineSource, catString], fun c hcne hcat => ?_⟩ <;>
    have hc := catString_inj (Option.some.inj hcat).symm
  case general => exact absurd hc hcne
  all_goals subst hc; rfl

/-- Witness for C5: a run classified as flight whose answer call raises. -/
theorem pipeline_source_iff_general_witness :
    ({ question := "hi", documents := some [],
       category := some "flight", confidence := some 1,
       current_context := some "",
       answer := some "Sorry, I couldn\x27t retrieve a flight information right now. Please try again.",
       source := some (some "flight.txt") } : TripAssistantState).source =
      some (some (CATEGORY_TO_DOCUMENT_KEY .flight ++ ".txt")) :=
  (pipeline_source_iff_general []
      (fun _ => .ok { category := .flight, confidence := 1 })
      (fun _ => .error "boom") "hi" _ rfl).2 .flight (by decide) rfl

/-- C4: for every one of the six non-general specialists, on any question and
context, if the model call raises any exception then the returned answer is
the fixed non-empty apology naming the topic, containing "couldn\x27t" and
containing neither "Exception" nor "Traceback"; and the returned source is
the static document label of the topic, exactly as on the success path. -/
theorem specialist_failure_apology (c : TopicCategory) (f : String)
    (hmem : (c, f) ∈ specialists) (q context e : String) (llm : AnswerBehavior)
    (hfail : llm (SPECIALIST_PROMPT_TEMPLATE (topicLabel c) context q) =
      .error e) :
    specialist_node c f llm
        { question := q, current_context := some context } =
      .ok { answer := fallbackAnswer c, source := some f } ∧
    fallbackAnswer c ≠ "" ∧
    strContains (fallbackAnswer c) (topicLabel c) ∧
    strContains (fallbackAnswer c) "couldn\x27t" ∧
    ¬ strContains (fallbackAnswer c) "Exception" ∧
    ¬ strContains (fallbackAnswer c) "Traceback" ∧
    ∀ (llm2 : AnswerBehavior) (a : String),
      llm2 (SPECIALIST_PROMPT_TEMPLATE (topicLabel c) context q) = .ok a →
      specialist_node c f llm2
          { question := q, current_context := some context } =
        .ok { answer := a, source := some f } := by
  fin_cases hmem <;>
    simp [topicLabel, TOPICS, List.lookup, catString] at hfail <;>
    refine ⟨by simp [specialist_node, TOPICS, List.lookup, catString,
              fallbackAnswer, topicLabel, hfail],
            by decide, by decide, by decide, by decide, by decide,
            fun llm2 a h2 => by
              simp [topicLabel, TOPICS, List.lookup, catString] at h2
              simp [specialist_node, TOPICS, List.lookup, catString, h2]⟩

/-- Witness for C4: the flight specialist with a raising model call. -/
theorem specialist_failure_apology_witness :
    specialist_node .flight "flight.txt" (fun _ => .error "boom")
        { question := "q", current_context := some "" } =
      .ok { answer := fallbackAnswer .flight, source := some "flight.txt" } ∧
    fallbackAnswer .flight ≠ "" ∧
    strContains (fallbackAnswer .flight) (topicLabel .flight) ∧
    strContains (fallbackAnswer .flight) "couldn\x27t" ∧
    ¬ strContains (fallbackAnswer .flight) "Exception" ∧
    ¬ strContains (fallbackAnswer .flight) "Traceback" ∧
    ∀ (llm2 : AnswerBehavior) (a : String),
      llm2 (SPECIALIST_PROMPT_TEMPLATE (topicLabel .flight) "" "q") = .ok a →
      specialist_node .flight "flight.txt" llm2
          { question := "q", current_context := some "" } =
        .ok { answer := a, source := some "flight.txt" } :=
  specialist_failure_apology .flight "flight.txt" (by decide) "q" "" "boom"
    (fun _ => .error "boom") rfl

theorem all_context_contains (documents : Documents) :
    ∀ p ∈ documents, strContains (all_context documents) (document_block p) := by
  induction documents with
  | nil => intro p hp; cases hp
  | cons x rest ih =>
    intro p hp
    rcases List.mem_cons.mp hp with rfl | hp
    · cases rest with
      | nil => exact strContains_refl _
      | cons y t =>
        exact strContains_appendR _ _ _
          (strContains_appendR _ _ _ (strContains_refl _))
    · cases rest with
      | nil => cases hp
      | cons y t => exact strContains_appendL _ _ _ (ih p hp)

/-- C6: the context the general answerer hands to its model call is the
all-documents concatenation: a single document stands alone, further blocks
are appended after the separator in the insertion order of the DocumentSet,
the text of every document appears inside it behind a delimiter naming its
source key,
two calls on the same DocumentSet produce the identical string, and
`handle_general` consults its model only at the prompt built from that
concatenation. -/
theorem general_context_concatenation (documents : Documents) (q : String) :
    (∀ p, all_context [p] = document_block p) ∧
    (∀ p p2 rest, all_context (p :: p2 :: rest) =
      document_block p ++ "\n\n" ++ all_context (p2 :: rest)) ∧
    (∀ p ∈ documents, strContains (all_context documents) (document_block p)) ∧
    (∀ documents2, documents = documents2 →
      all_context documents = all_context documents2) ∧
    (∀ llm llm2 : AnswerBehavior,
      llm (GENERAL_PROMPT_TEMPLATE (all_context documents) q) =
        llm2 (GENERAL_PROMPT_TEMPLATE (all_context documents) q) →
      handle_general llm { question := q, documents := some documents } =
        handle_general llm2 { question := q, documents := some documents }) := by
  refine ⟨fun p => rfl, fun p p2 rest => rfl, all_context_contains documents,
          fun documents2 h => by rw [h], fun llm llm2 hsame => ?_⟩
  simp [handle_general, hsame]

/-- Witness for C6: a two-document set contains the second block. -/
theorem general_context_concatenation_witness :
    strContains (all_context [("flight", "FLY"), ("chamonix", "CHX")])
      (document_block ("chamonix", "CHX")) :=
  (general_context_concatenation [("flight", "FLY"), ("chamonix", "CHX")]
      "q").2.2.1 ("chamonix", "CHX") (by decide)

end TripAgent
